import Mathlib

/-!
Shallow embedding of the PDF structural repair and validation engine
(`pdf-repair-tool`): byte buffers are `List Nat`, decoded text is
`List Char`.  Each definition mirrors one TypeScript function of the
source; theorems check the specification's claims against them.
-/

namespace PDFRepairTool

/-- A binary buffer (Node `Buffer` / `Uint8Array`): a list of byte values. -/
abbrev Buf := List Nat

/-- Decoded text (a JavaScript string): a list of characters. -/
abbrev Text := List Char

/-- `leadsWith pat s` is true when `pat` is an initial segment of `s`
(the Boolean prefix test used to model anchored regex literals). -/
def leadsWith : Text → Text → Bool
  | [], _ => true
  | _ :: _, [] => false
  | p :: ps, c :: cs => p == c && leadsWith ps cs

/-- The character class of the JavaScript regex `\s` (ASCII whitespace
plus the Unicode space characters JS includes). -/
def isSpaceChar (c : Char) : Bool :=
  c == ' ' || c == '\t' || c == '\n' || c == '\x0b' || c == '\x0c' || c == '\r' ||
  c == '\u00A0' || c == '\u1680' || ('\u2000' ≤ c && c ≤ '\u200A') ||
  c == '\u2028' || c == '\u2029' || c == '\u202F' || c == '\u205F' ||
  c == '\u3000' || c == '\uFEFF'

/-- The character class of the JavaScript regex `\d`. -/
def isDigitChar (c : Char) : Bool := '0' ≤ c && c ≤ '9'

/-- Characters matched by the JavaScript regex `.` without the `s` flag
(anything except a line terminator). -/
def isDotChar (c : Char) : Bool :=
  !(c == '\n' || c == '\r' || c == '\u2028' || c == '\u2029')

/-- `containsSeg pat s`: the literal `pat` occurs as a contiguous segment
of `s` (models `String.prototype.includes` / `indexOf(...) !== -1`). -/
def containsSeg (pat : Text) : Text → Bool
  | [] => leadsWith pat []
  | c :: rest => leadsWith pat (c :: rest) || containsSeg pat rest

/-- `anySuffix p s`: some suffix of `s` satisfies `p` (models an
unanchored regex test, which tries every start position). -/
def anySuffix (p : Text → Bool) : Text → Bool
  | [] => p []
  | c :: rest => p (c :: rest) || anySuffix p rest

/-- Fuel-driven scan counting non-overlapping left-to-right occurrences
of a literal (structural recursion so that concrete inputs evaluate). -/
def countOccAux (pat : Text) : Nat → Text → Nat
  | _, [] => 0
  | 0, _ :: _ => 0
  | fuel + 1, c :: rest =>
    if leadsWith pat (c :: rest) then countOccAux pat fuel (rest.drop (pat.length - 1)) + 1
    else countOccAux pat fuel rest

/-- Number of non-overlapping left-to-right occurrences of the literal
`pat`, exactly as a global JavaScript regex match counts them
(`text.match(/pat/g).length`). -/
def countOcc (pat t : Text) : Nat := countOccAux pat t.length t

/-- First occurrence split: `splitFirst pat s = some (pre, post)` when
`s = pre ++ pat ++ post` with `pre` shortest (models lazy regex gaps and
`indexOf`). -/
def splitFirst (pat : Text) : Text → Option (Text × Text)
  | [] => none
  | c :: rest =>
    if leadsWith pat (c :: rest) then some ([], rest.drop (pat.length - 1))
    else
      match splitFirst pat rest with
      | some (pre, post) => some (c :: pre, post)
      | none => none

/-- The lookahead `\s*\n` (with backtracking): the scanned text has a
newline preceded only by `\s` characters. -/
def wsThenNewline : Text → Bool
  | [] => false
  | c :: rest => if c == '\n' then true else if isSpaceChar c then wsThenNewline rest else false

/-- Numeric value of a string of decimal digits (models `parseInt` on an
all-digit match; the comparison against the fixed ceiling is exact). -/
def digitsVal (l : Text) : Nat := l.foldl (fun acc c => acc * 10 + (c.toNat - 48)) 0

/-- JavaScript `String.prototype.length` of a piece of text: UTF-16 code
units (astral characters count as two). -/
def utf16Len (l : Text) : Nat :=
  (l.map (fun c => if c.toNat < 0x10000 then 1 else 2)).sum

/-- The Unicode replacement character U+FFFD emitted by `TextDecoder`
for bytes that are not valid UTF-8. -/
def replChar : Char := Char.ofNat 0xFFFD

/-- UTF-8 encoding of one scalar value (`TextEncoder`). -/
def utf8EncodeChar (c : Char) : List Nat :=
  let n := c.toNat
  if n < 0x80 then [n]
  else if n < 0x800 then [0xC0 + n / 0x40, 0x80 + n % 0x40]
  else if n < 0x10000 then [0xE0 + n / 0x1000, 0x80 + n / 0x40 % 0x40, 0x80 + n % 0x40]
  else [0xF0 + n / 0x40000, 0x80 + n / 0x1000 % 0x40, 0x80 + n / 0x40 % 0x40, 0x80 + n % 0x40]

/-- `TextEncoder().encode`: UTF-8 bytes of a piece of text. -/
def utf8Encode (t : Text) : Buf := (t.map utf8EncodeChar).flatten

/-- Decode one scalar from a lead byte and the remaining bytes, with the
WHATWG replacement-character policy for invalid sequences (used by
`TextDecoder`): returns the produced character and the bytes still to be
decoded. -/
def decodeOne (b : Nat) (rest : Buf) : Char × Buf :=
  if b < 0x80 then (Char.ofNat b, rest)
  else if 0xC2 ≤ b ∧ b ≤ 0xDF then
    match rest with
    | [] => (replChar, [])
    | b2 :: rest2 =>
      if 0x80 ≤ b2 ∧ b2 ≤ 0xBF then (Char.ofNat ((b - 0xC0) * 0x40 + (b2 - 0x80)), rest2)
      else (replChar, b2 :: rest2)
  else if 0xE0 ≤ b ∧ b ≤ 0xEF then
    match rest with
    | [] => (replChar, [])
    | b2 :: rest2 =>
      if (0x80 ≤ b2 ∧ b2 ≤ 0xBF) ∧ (b = 0xE0 → 0xA0 ≤ b2) ∧ (b = 0xED → b2 ≤ 0x9F) then
        match rest2 with
        | [] => (replChar, [])
        | b3 :: rest3 =>
          if 0x80 ≤ b3 ∧ b3 ≤ 0xBF then
            (Char.ofNat ((b - 0xE0) * 0x1000 + (b2 - 0x80) * 0x40 + (b3 - 0x80)), rest3)
          else (replChar, b3 :: rest3)
      else (replChar, b2 :: rest2)
  else if 0xF0 ≤ b ∧ b ≤ 0xF4 then
    match rest with
    | [] => (replChar, [])
    | b2 :: rest2 =>
      if (0x80 ≤ b2 ∧ b2 ≤ 0xBF) ∧ (b = 0xF0 → 0x90 ≤ b2) ∧ (b = 0xF4 → b2 ≤ 0x8F) then
        match rest2 with
        | [] => (replChar, [])
        | b3 :: rest3 =>
          if 0x80 ≤ b3 ∧ b3 ≤ 0xBF then
            match rest3 with
            | [] => (replChar, [])
            | b4 :: rest4 =>
              if 0x80 ≤ b4 ∧ b4 ≤ 0xBF then
                (Char.ofNat ((b - 0xF0) * 0x40000 + (b2 - 0x80) * 0x1000 +
                  (b3 - 0x80) * 0x40 + (b4 - 0x80)), rest4)
              else (replChar, b4 :: rest4)
          else (replChar, b3 :: rest3)
      else (replChar, b2 :: rest2)
  else (replChar, rest)

/-- Fuel-driven UTF-8 decoding loop (structural recursion so that
concrete inputs evaluate; one unit of fuel per decoded character). -/
def utf8DecodeAux : Nat → Buf → Text
  | _, [] => []
  | 0, _ :: _ => []
  | fuel + 1, b :: rest => (decodeOne b rest).1 :: utf8DecodeAux fuel (decodeOne b rest).2

/-- `TextDecoder().decode`: UTF-8 text of a byte buffer, with invalid
sequences replaced by U+FFFD. -/
def utf8Decode (bs : Buf) : Text := utf8DecodeAux bs.length bs

/-! ## The repair orchestrator: `repairPDF` (src/lib/pdfRepair.ts) -/

/-- Result record of `repairPDF` (`PDFRepairResult` in the source:
`isValid`, optional `repairedPDF`, optional `error`). -/
structure PDFRepairResult where
  isValid : Bool
  repairedPDF : Option Buf
  error : Option Text
deriving Repr, DecidableEq

/-- The five ASCII bytes of the literal `%PDF-`. -/
def pdfHeaderBytes : Buf := [0x25, 0x50, 0x44, 0x46, 0x2D]

/-- `repairPDF` (src/lib/pdfRepair.ts): rejects an empty buffer, rejects a
buffer whose first five bytes do not decode to `%PDF-`
(`pdfBuffer.slice(0, 5).toString() !== "%PDF-"`), and otherwise returns
the input buffer unchanged as the repaired PDF (the body is an admitted
stub: "For now, just return the original buffer if it appears valid"). -/
def repairPDF (pdfBuffer : Buf) : PDFRepairResult :=
  if pdfBuffer.length = 0 then
    { isValid := false, repairedPDF := none, error := some "Invalid PDF buffer provided".toList }
  else if utf8Decode (pdfBuffer.take 5) ≠ "%PDF-".toList then
    { isValid := false, repairedPDF := none, error := some "Invalid PDF header".toList }
  else
    { isValid := true, repairedPDF := some pdfBuffer, error := none }

/-! ## The corruption classifier (src/unnamed/part_005) -/

/-- The four severity levels of a `PDFCorruptionResult`. -/
inductive Severity where
  | LOW
  | MEDIUM
  | HIGH
  | CRITICAL
deriving Repr, DecidableEq

/-- Header pattern 1, `/^%PDF-[^1-7]\.[^0-9]/`: version digit outside
1-7 followed by a dot and a non-digit, anchored at the start. -/
def headerPattern1 (t : Text) : Bool :=
  leadsWith "%PDF-".toList t &&
  (match t.drop 5 with
   | a :: b :: c :: _ => !('1' ≤ a && a ≤ '7') && (b == '.') && !isDigitChar c
   | _ => false)

/-- Header pattern 2, `/%PDF-\d\.\d.{100,}/`: a version signature
followed by at least 100 non-line-terminator characters. -/
def headerPattern2 (t : Text) : Bool :=
  anySuffix (fun s =>
    leadsWith "%PDF-".toList s &&
    (match s.drop 5 with
     | a :: b :: c :: rest =>
        isDigitChar a && (b == '.') && isDigitChar c &&
        decide (100 ≤ (rest.takeWhile isDotChar).length)
     | _ => false)) t

/-- `\s*` then a literal, with backtracking (used by `/^\s+%PDF/`). -/
def wsStarThen (pat : Text) : Text → Bool
  | [] => leadsWith pat []
  | c :: rest => leadsWith pat (c :: rest) || (isSpaceChar c && wsStarThen pat rest)

/-- Header pattern 3, `/^\s+%PDF/`: whitespace before the signature. -/
def headerPattern3 (t : Text) : Bool :=
  match t with
  | [] => false
  | c :: rest => isSpaceChar c && wsStarThen "%PDF".toList rest

/-- Issue string `Header corruption detected: Pattern <i>`. -/
def headerIssueMsg (i : Nat) : Text :=
  "Header corruption detected: Pattern ".toList ++ (toString i).toList

/-- `checkHeaderCorruption`: missing `%PDF-` start short-circuits;
otherwise each matching header pattern appends one labeled issue. -/
def checkHeaderCorruption (t : Text) : List Text :=
  if !(leadsWith "%PDF-".toList t) then ["Missing PDF header".toList]
  else
    (if headerPattern1 t then [headerIssueMsg 1] else []) ++
    (if headerPattern2 t then [headerIssueMsg 2] else []) ++
    (if headerPattern3 t then [headerIssueMsg 3] else [])

/-- The lookahead body `\d+\s+\d+\s*\n` of xref pattern 1. -/
def xrefSubsectionAt (s : Text) : Bool :=
  let s1 := s.dropWhile isDigitChar
  let s2 := s1.dropWhile isSpaceChar
  let s3 := s2.dropWhile isDigitChar
  !(s.takeWhile isDigitChar).isEmpty && !(s1.takeWhile isSpaceChar).isEmpty &&
  !(s2.takeWhile isDigitChar).isEmpty && wsThenNewline s3

/-- Tail of xref pattern 1 after the literal `xref`: `\s*\n` whose
negative lookahead `(?!\d+\s+\d+\s*\n)` fails, with backtracking. -/
def xref1Tail : Text → Bool
  | [] => false
  | c :: rest =>
    if c == '\n' && !xrefSubsectionAt rest then true
    else if isSpaceChar c then xref1Tail rest
    else false

/-- Xref pattern 1, `/xref\s*\n(?!\d+\s+\d+\s*\n)/`: an xref keyword
not followed by a subsection header line. -/
def xrefPattern1 (t : Text) : Bool :=
  anySuffix (fun s => leadsWith "xref".toList s && xref1Tail (s.drop 4)) t

/-- Xref pattern 2 at one position, `\n\d{10}\s[^0-9fn]\s\d{5}`:
an entry whose type character is invalid. -/
def xref2At (s : Text) : Bool :=
  match s with
  | '\n' :: r =>
    decide ((r.take 10).length = 10) && (r.take 10).all isDigitChar &&
    (match r.drop 10 with
     | w1 :: x :: w2 :: rest2 =>
        isSpaceChar w1 && !(isDigitChar x || x == 'f' || x == 'n') && isSpaceChar w2 &&
        decide ((rest2.take 5).length = 5) && (rest2.take 5).all isDigitChar
     | _ => false)
  | _ => false

/-- Xref pattern 3 at one position, `\n\d{9}[^0-9]\s[0-9fn]\s\d{5}`:
an entry whose object-offset field is malformed. -/
def xref3At (s : Text) : Bool :=
  match s with
  | '\n' :: r =>
    decide ((r.take 9).length = 9) && (r.take 9).all isDigitChar &&
    (match r.drop 9 with
     | x :: w1 :: y :: w2 :: rest2 =>
        !isDigitChar x && isSpaceChar w1 && (isDigitChar y || y == 'f' || y == 'n') &&
        isSpaceChar w2 &&
        decide ((rest2.take 5).length = 5) && (rest2.take 5).all isDigitChar
     | _ => false)
  | _ => false

/-- Issue string `Cross-reference corruption detected: Pattern <i>`. -/
def xrefIssueMsg (i : Nat) : Text :=
  "Cross-reference corruption detected: Pattern ".toList ++ (toString i).toList

/-- `checkXRefCorruption`: missing `\nxref\n` short-circuits; otherwise
each matching xref pattern appends one labeled issue. -/
def checkXRefCorruption (t : Text) : List Text :=
  if !(containsSeg "\nxref\n".toList t) then ["Missing cross-reference table".toList]
  else
    (if xrefPattern1 t then [xrefIssueMsg 1] else []) ++
    (if anySuffix xref2At t then [xrefIssueMsg 2] else []) ++
    (if anySuffix xref3At t then [xrefIssueMsg 3] else [])

/-- Stream pattern 1, `/stream[\s\S]*?endstream/`: a `stream` keyword
with an `endstream` somewhere after it. -/
def streamPattern1 (t : Text) : Bool :=
  anySuffix (fun s => leadsWith "stream".toList s && containsSeg "endstream".toList (s.drop 6)) t

/-- Stream pattern 2, `/stream(?!\s*\n)/`. -/
def streamPattern2 (t : Text) : Bool :=
  anySuffix (fun s => leadsWith "stream".toList s && !wsThenNewline (s.drop 6)) t

/-- Stream pattern 3, `/endstream(?!\s*\n)/`. -/
def streamPattern3 (t : Text) : Bool :=
  anySuffix (fun s => leadsWith "endstream".toList s && !wsThenNewline (s.drop 9)) t

/-- Issue string `Stream corruption detected: Pattern <i>`. -/
def streamIssueMsg (i : Nat) : Text :=
  "Stream corruption detected: Pattern ".toList ++ (toString i).toList

/-- The mismatch issue string naming both occurrence counts. -/
def mismatchMsg (a b : Nat) : Text :=
  "Mismatched stream/endstream pairs: ".toList ++ (toString a).toList ++
  " streams vs ".toList ++ (toString b).toList ++ " endstreams".toList

/-- `checkStreamCorruption`: a mismatch issue when the occurrence counts
of the literals `stream` and `endstream` differ, then one labeled issue
per matching stream pattern. -/
def checkStreamCorruption (t : Text) : List Text :=
  (if countOcc "stream".toList t ≠ countOcc "endstream".toList t then
    [mismatchMsg (countOcc "stream".toList t) (countOcc "endstream".toList t)]
  else []) ++
  (if streamPattern1 t then [streamIssueMsg 1] else []) ++
  (if streamPattern2 t then [streamIssueMsg 2] else []) ++
  (if streamPattern3 t then [streamIssueMsg 3] else [])

/-- `calculateCorruptionSeverity` (src/unnamed/part_005). -/
def calculateCorruptionSeverity (headerIssues xrefIssues streamIssues : List Text) : Severity :=
  if headerIssues.length > 0 then .CRITICAL
  else if xrefIssues.length > 0 then .HIGH
  else if streamIssues.length > 2 then .HIGH
  else if streamIssues.length > 0 then .MEDIUM
  else .LOW

/-- `determineRepairStrategy` (src/unnamed/part_005). -/
def determineRepairStrategy (headerIssues xrefIssues streamIssues : List Text) : List Text :=
  (if headerIssues.length > 0 then ["Reconstruct PDF header".toList] else []) ++
  (if xrefIssues.length > 0 then ["Rebuild cross-reference table".toList] else []) ++
  (if streamIssues.length > 0 then
    ["Fix stream delimiters".toList, "Recalculate stream lengths".toList]
  else [])

/-- Result record of `checkPDFCorruption` (`PDFCorruptionResult`),
with the `corruptions` object flattened into its three fields. -/
structure PDFCorruptionResult where
  isCorrupted : Bool
  header : List Text
  xref : List Text
  streams : List Text
  severity : Severity
  repairStrategy : List Text
deriving Repr, DecidableEq

/-- `checkPDFCorruption` (src/unnamed/part_005): decode once, run the
three region checks, aggregate severity and repair strategy. -/
def checkPDFCorruption (buffer : Buf) : PDFCorruptionResult :=
  let text := utf8Decode buffer
  let headerIssues := checkHeaderCorruption text
  let xrefIssues := checkXRefCorruption text
  let streamIssues := checkStreamCorruption text
  { isCorrupted := headerIssues.length > 0 || xrefIssues.length > 0 || streamIssues.length > 0
    header := headerIssues
    xref := xrefIssues
    streams := streamIssues
    severity := calculateCorruptionSeverity headerIssues xrefIssues streamIssues
    repairStrategy := determineRepairStrategy headerIssues xrefIssues streamIssues }

/-- Test for the mismatch issue among stream issues (its message and only
its message starts with `Mismatched`). -/
def isMismatchIssue (s : Text) : Bool := leadsWith "Mismatched".toList s


/-! ## The recovery engine (src/lib/auditLogger.ts, recovery section) -/

/-- The `PDFErrorMessageType` error taxonomy (the keys of the
`ERROR_MESSAGES` record in src/lib/pdfErrorMessages.ts). -/
inductive PDFErrorMessageType where
  | MISSING_HEADER
  | INVALID_VERSION
  | MALFORMED_HEADER
  | MISSING_XREF
  | INVALID_XREF_ENTRY
  | XREF_OVERFLOW
  | MISMATCHED_STREAM
  | INVALID_STREAM_LENGTH
  | CORRUPTED_STREAM_DATA
  | INVALID_OBJECT
  | MISSING_OBJECT
  | DUPLICATE_OBJECT
  | CORRUPTED_TEXT
  | CORRUPTED_IMAGE
  | CORRUPTED_FONT
  | BROKEN_TREE
  | INVALID_PAGE_TREE
  | BROKEN_LINKS
  | BROKEN_ENCRYPTION
  | INVALID_PASSWORD
  | CORRUPTED_METADATA
  | INVALID_PERMISSIONS
deriving Repr, DecidableEq

/-- Return value `{ recoveredData, success }` of one recovery transform. -/
structure TransformResult where
  recoveredData : Buf
  success : Bool
deriving Repr, DecidableEq

/-- Result record `PDFRecoveryResult` of `applyRecoveryStrategy`. -/
structure PDFRecoveryResult where
  success : Bool
  message : Text
  recoveredData : Buf
  appliedStrategy : Text
deriving Repr, DecidableEq

/-- The constant `PDF_HEADER_TEMPLATE = '%PDF-1.7\n%<FFFD><FFFD><FFFD><FFFD>\n'`
(the source file stores the binary-marker comment line as four U+FFFD
replacement characters). -/
def pdfHeaderTemplate : Text :=
  "%PDF-1.7\n%".toList ++ [replChar, replChar, replChar, replChar] ++ "\n".toList

/-- `recoverHeader`: prepend the canonical two-line header template to
the data; always succeeds. -/
def recoverHeader (data : Buf) : TransformResult :=
  ⟨utf8Encode pdfHeaderTemplate ++ data, true⟩

/-- `padStart(10, '0')` of a rendered number. -/
def padStart10 (s : Text) : Text :=
  if s.length < 10 then List.replicate (10 - s.length) '0' ++ s else s

/-- `text.indexOf(pat)`: index of the first occurrence, `-1` if absent. -/
def segIndex (pat t : Text) : Int :=
  match splitFirst pat t with
  | some (pre, _) => (pre.length : Int)
  | none => -1

/-- Anchored match of `/(\d+)\s+\d+\s+obj[\s\S]*?endobj/` at the start of
`s`: the matched text and the remainder after it. -/
def tryObjMatch (s : Text) : Option (Text × Text) :=
  let d1 := s.takeWhile isDigitChar
  let s1 := s.dropWhile isDigitChar
  let w1 := s1.takeWhile isSpaceChar
  let s2 := s1.dropWhile isSpaceChar
  let d2 := s2.takeWhile isDigitChar
  let s3 := s2.dropWhile isDigitChar
  let w2 := s3.takeWhile isSpaceChar
  let s4 := s3.dropWhile isSpaceChar
  if d1.isEmpty || w1.isEmpty || d2.isEmpty || w2.isEmpty then none
  else if leadsWith "obj".toList s4 then
    match splitFirst "endobj".toList (s4.drop 3) with
    | some (gap, rest) =>
      some (d1 ++ w1 ++ d2 ++ w2 ++ "obj".toList ++ gap ++ "endobj".toList, rest)
    | none => none
  else none

/-- Fuel-driven global scan collecting every `<n> <m> obj ... endobj`
match left to right (`text.match(/.../g)`). -/
def objMatchesAux : Nat → Text → List Text
  | _, [] => []
  | 0, _ :: _ => []
  | fuel + 1, c :: rest =>
    match tryObjMatch (c :: rest) with
    | some (m, after) => m :: objMatchesAux fuel after
    | none => objMatchesAux fuel rest

/-- All object-block matches of the decoded buffer. -/
def objMatches (t : Text) : List Text := objMatchesAux t.length t

/-- One synthesized xref entry per object: first `indexOf` of the matched
text, zero-padded to ten digits. -/
def xrefEntriesFor (text : Text) : List Text :=
  (objMatches text).map (fun m =>
    padStart10 (toString (segIndex m text)).toList ++ " 00000 n\n".toList)

/-- The synthesized xref section: the free-entry template
(`XREF_ENTRY_TEMPLATE`) followed by the per-object entries, under an
`xref\n0 <count>\n` heading. -/
def xrefTableText (text : Text) : Text :=
  let entries := "0000000000 65535 f\n".toList :: xrefEntriesFor text
  "xref\n0 ".toList ++ (toString entries.length).toList ++ "\n".toList ++ entries.flatten

/-- `TypedArray.set(src, off)` on a buffer it fits into. -/
def setAt (arr : Buf) (off : Nat) (src : Buf) : Buf :=
  arr.take off ++ src ++ arr.drop (off + src.length)

/-- Body of `recoverXRefTable` inside its `try`: allocate a zero-filled
buffer of combined size, copy the data into it, then write the
synthesized table starting six bytes before the data's end.  A buffer
shorter than six bytes makes `set` throw a RangeError (negative
offset). -/
def recoverXRefTableBody (data : Buf) : Except Text TransformResult :=
  let text := utf8Decode data
  let xrefBuffer := utf8Encode (xrefTableText text)
  if data.length < 6 then Except.error "offset is out of bounds".toList
  else
    Except.ok ⟨setAt (setAt (List.replicate (data.length + xrefBuffer.length) 0) 0 data)
      (data.length - 6) xrefBuffer, true⟩

/-- `recoverXRefTable`: the body above with its catch clause
(`return { recoveredData: data, success: false }`). -/
def recoverXRefTable (data : Buf) : TransformResult :=
  match recoverXRefTableBody data with
  | Except.ok r => r
  | Except.error _ => ⟨data, false⟩

/-- First substitution of `fixStreamDelimiters`:
`text.replace(/stream(?!\n)/g, 'stream\n')`. -/
def fixStreamAux1 : Nat → Text → Text
  | _, [] => []
  | 0, l => l
  | fuel + 1, c :: rest =>
    if leadsWith "stream".toList (c :: rest) && !((rest.drop 5).head? == some '\n') then
      "stream\n".toList ++ fixStreamAux1 fuel (rest.drop 5)
    else c :: fixStreamAux1 fuel rest

/-- Second substitution: `text.replace(/(?<!\n)endstream/g, '\nendstream')`
(the lookbehind reads the character of the source text before the match,
tracked in `prev`). -/
def fixStreamAux2 : Nat → Option Char → Text → Text
  | _, _, [] => []
  | 0, _, l => l
  | fuel + 1, prev, c :: rest =>
    if leadsWith "endstream".toList (c :: rest) && !(prev == some '\n') then
      "\nendstream".toList ++ fixStreamAux2 fuel (some 'm') (rest.drop 8)
    else c :: fixStreamAux2 fuel (some c) rest

/-- Anchored match of
`/\/Length\s+\d+[\s\S]*?stream\n([\s\S]*?)\nendstream/` at the start of
`s`: the replacement text (with the recomputed length) and the remainder
after the match. -/
def tryLenMatch (s : Text) : Option (Text × Text) :=
  if leadsWith "/Length".toList s then
    let s1 := s.drop 7
    let w1 := s1.takeWhile isSpaceChar
    let s2 := s1.dropWhile isSpaceChar
    let d := s2.takeWhile isDigitChar
    let s3 := s2.dropWhile isDigitChar
    if w1.isEmpty || d.isEmpty then none
    else
      match splitFirst "stream\n".toList s3 with
      | some (_, s4) =>
        match splitFirst "\nendstream".toList s4 with
        | some (content, s5) =>
          some ("/Length ".toList ++ (toString (utf16Len content)).toList ++
            "\nstream\n".toList ++ content ++ "\nendstream".toList, s5)
        | none => none
      | none => none
  else none

/-- Third substitution: recompute `/Length` from the actual content
between `stream\n` and `\nendstream` (string length in UTF-16 units, as
JavaScript's `.length`). -/
def fixStreamAux3 : Nat → Text → Text
  | _, [] => []
  | 0, l => l
  | fuel + 1, c :: rest =>
    match tryLenMatch (c :: rest) with
    | some (rep, after) => rep ++ fixStreamAux3 fuel after
    | none => c :: fixStreamAux3 fuel rest

/-- The three text substitutions of `fixStreamDelimiters`, in source
order. -/
def fixStreamText (t : Text) : Text :=
  let t1 := fixStreamAux1 t.length t
  let t2 := fixStreamAux2 t1.length none t1
  fixStreamAux3 t2.length t2

/-- `fixStreamDelimiters`: decode, run the three substitutions, re-encode
(no step of the body can throw, so the catch clause is dead). -/
def fixStreamDelimiters (data : Buf) : TransformResult :=
  ⟨utf8Encode (fixStreamText (utf8Decode data)), true⟩

/-- The character class `[\x00-\x08\x0B\x0C\x0E-\x1F\x7F-\x9F]` stripped
by `recoverTextContent`. -/
def isCtrlStrip (c : Char) : Bool :=
  (c.toNat ≤ 0x08) || c.toNat == 0x0B || c.toNat == 0x0C ||
  (0x0E ≤ c.toNat && c.toNat ≤ 0x1F) || (0x7F ≤ c.toNat && c.toNat ≤ 0x9F)

/-- `text.replace(/<([^>]+)>/g, '($1)')`. -/
def angleFixAux : Nat → Text → Text
  | _, [] => []
  | 0, l => l
  | fuel + 1, c :: rest =>
    if c == '<' then
      let run := rest.takeWhile (fun x => !(x == '>'))
      let s2 := rest.dropWhile (fun x => !(x == '>'))
      if run.isEmpty then c :: angleFixAux fuel rest
      else
        match s2 with
        | '>' :: s3 => '(' :: (run ++ ')' :: angleFixAux fuel s3)
        | _ => c :: angleFixAux fuel rest
    else c :: angleFixAux fuel rest

/-- `text.replace(/\(\\[\d]{3}\)/g, ' ')`. -/
def octalFixAux : Nat → Text → Text
  | _, [] => []
  | 0, l => l
  | fuel + 1, c :: rest =>
    match c :: rest with
    | '(' :: '\\' :: d1 :: d2 :: d3 :: ')' :: s6 =>
      if isDigitChar d1 && isDigitChar d2 && isDigitChar d3 then ' ' :: octalFixAux fuel s6
      else c :: octalFixAux fuel rest
    | _ => c :: octalFixAux fuel rest

/-- `recoverTextContent`: strip control characters, replace angle-bracket
markers with parentheses, blank broken octal escapes. -/
def recoverTextContent (data : Buf) : TransformResult :=
  let t0 := utf8Decode data
  let t1 := t0.filter (fun c => !isCtrlStrip c)
  let t2 := angleFixAux t1.length t1
  ⟨utf8Encode (octalFixAux t2.length t2), true⟩

/-- Anchored match of `/\/Subtype\s*\/Image[\s\S]*?stream[\s\S]*?endstream/`
at the start of `s`: the remainder after the match. -/
def tryImageMatch (s : Text) : Option Text :=
  if leadsWith "/Subtype".toList s then
    let s1 := (s.drop 8).dropWhile isSpaceChar
    if leadsWith "/Image".toList s1 then
      match splitFirst "stream".toList (s1.drop 6) with
      | some (_, s2) =>
        match splitFirst "endstream".toList s2 with
        | some (_, s3) => some s3
        | none => none
      | none => none
    else none
  else none

/-- The minimal zero-size RGB image stub substituted for each corrupted
image stream. -/
def imageStub : Text :=
  ("/Subtype /Image\n/Width 0\n/Height 0\n/BitsPerComponent 8\n" ++
    "/ColorSpace /DeviceRGB\n>>\nstream\nendstream").toList

/-- Global image-stream replacement scan of `recoverImageData`. -/
def imageFixAux : Nat → Text → Text
  | _, [] => []
  | 0, l => l
  | fuel + 1, c :: rest =>
    match tryImageMatch (c :: rest) with
    | some after => imageStub ++ imageFixAux fuel after
    | none => c :: imageFixAux fuel rest

/-- `recoverImageData`: replace every matched image stream region with
the stub dictionary and empty stream. -/
def recoverImageData (data : Buf) : TransformResult :=
  let t := utf8Decode data
  ⟨utf8Encode (imageFixAux t.length t), true⟩

/-- Anchored match of `/\/Encrypt\s*<<[\s\S]*?>>/g` at the start of `s`:
the remainder after the match. -/
def tryEncDictMatch (s : Text) : Option Text :=
  if leadsWith "/Encrypt".toList s then
    let s1 := (s.drop 8).dropWhile isSpaceChar
    if leadsWith "<<".toList s1 then
      match splitFirst ">>".toList (s1.drop 2) with
      | some (_, s2) => some s2
      | none => none
    else none
  else none

/-- Global removal scan for inline `/Encrypt << ... >>` dictionaries. -/
def encDictFixAux : Nat → Text → Text
  | _, [] => []
  | 0, l => l
  | fuel + 1, c :: rest =>
    match tryEncDictMatch (c :: rest) with
    | some after => encDictFixAux fuel after
    | none => c :: encDictFixAux fuel rest

/-- Anchored match of `/\/Encrypt\s+\d+\s+\d+\s+R/` at the start of `s`:
the remainder after the match. -/
def tryEncRefMatch (s : Text) : Option Text :=
  if leadsWith "/Encrypt".toList s then
    let s1 := s.drop 8
    let w1 := s1.takeWhile isSpaceChar
    let s2 := s1.dropWhile isSpaceChar
    let d1 := s2.takeWhile isDigitChar
    let s3 := s2.dropWhile isDigitChar
    let w2 := s3.takeWhile isSpaceChar
    let s4 := s3.dropWhile isSpaceChar
    let d2 := s4.takeWhile isDigitChar
    let s5 := s4.dropWhile isDigitChar
    let w3 := s5.takeWhile isSpaceChar
    let s6 := s5.dropWhile isSpaceChar
    if w1.isEmpty || d1.isEmpty || w2.isEmpty || d2.isEmpty || w3.isEmpty then none
    else
      match s6 with
      | 'R' :: s7 => some s7
      | _ => none
  else none

/-- Global removal scan for `/Encrypt n m R` indirect references. -/
def encRefFixAux : Nat → Text → Text
  | _, [] => []
  | 0, l => l
  | fuel + 1, c :: rest =>
    match tryEncRefMatch (c :: rest) with
    | some after => encRefFixAux fuel after
    | none => c :: encRefFixAux fuel rest

/-- `removeEncryption`: drop encryption dictionaries then encryption
references. -/
def removeEncryption (data : Buf) : TransformResult :=
  let t0 := utf8Decode data
  let t1 := encDictFixAux t0.length t0
  ⟨utf8Encode (encRefFixAux t1.length t1), true⟩

/-- The `{ success, message, recoveredData, appliedStrategy }` record the
dispatch builds after a transform returns. -/
def mkRecoveryResult (success : Bool) (recoveredData : Buf) (recoveryMethod : Text) :
    PDFRecoveryResult :=
  ⟨success,
    (if success then "Recovery completed successfully".toList
     else "Recovery partially completed with issues".toList),
    recoveredData, recoveryMethod⟩

/-- The `switch (errorType)` body of `applyRecoveryStrategy` inside its
`try`; the default case returns the no-strategy record directly. -/
def applyRecoveryStrategyBody (data : Buf) (errorType : PDFErrorMessageType) :
    Except Text PDFRecoveryResult :=
  match errorType with
  | .MISSING_HEADER =>
    Except.ok (mkRecoveryResult (recoverHeader data).success
      (recoverHeader data).recoveredData "Header reconstruction".toList)
  | .MISSING_XREF =>
    Except.ok (mkRecoveryResult (recoverXRefTable data).success
      (recoverXRefTable data).recoveredData "Cross-reference table rebuild".toList)
  | .MISMATCHED_STREAM =>
    Except.ok (mkRecoveryResult (fixStreamDelimiters data).success
      (fixStreamDelimiters data).recoveredData "Stream delimiter correction".toList)
  | .CORRUPTED_TEXT =>
    Except.ok (mkRecoveryResult (recoverTextContent data).success
      (recoverTextContent data).recoveredData "Text content recovery".toList)
  | .CORRUPTED_IMAGE =>
    Except.ok (mkRecoveryResult (recoverImageData data).success
      (recoverImageData data).recoveredData "Image data recovery".toList)
  | .BROKEN_ENCRYPTION =>
    Except.ok (mkRecoveryResult (removeEncryption data).success
      (removeEncryption data).recoveredData "Encryption removal".toList)
  | _ =>
    Except.ok ⟨false, "No recovery strategy available for this error type".toList,
      data, "none".toList⟩

/-- The dispatch-level `catch`: an exception escaping a transform is
converted into a failed result carrying the original bytes. -/
def recoveryBoundary (data : Buf) (body : Except Text PDFRecoveryResult) : PDFRecoveryResult :=
  match body with
  | Except.ok r => r
  | Except.error e => ⟨false, "Recovery failed: ".toList ++ e, data, "failed".toList⟩

/-- `applyRecoveryStrategy` (src/lib/auditLogger.ts): dispatch on the
error category, guarded by the boundary catch. -/
def applyRecoveryStrategy (data : Buf) (errorType : PDFErrorMessageType) : PDFRecoveryResult :=
  recoveryBoundary data (applyRecoveryStrategyBody data errorType)


/-- The C7 failing input: a buffer whose stream delimiters are already
correct (newline after every `stream` occurrence, newline before every
`endstream` occurrence) and whose `/Length 1` equals the 1-byte body,
but whose body byte `0x80` is not valid UTF-8. -/
def streamFixCex : Buf :=
  utf8Encode "%PDF-1.7\n<< /Length 1 >>\nstream\n".toList ++ [0x80] ++
    utf8Encode "\nendstream\n".toList

/-! ## The structure validator: `validateXRefTable` (src/unnamed/part_007) -/

/-- Result `{ valid, error? }` of one structure-validator check. -/
structure XRefValidation where
  valid : Bool
  error : Option Text
deriving Repr, DecidableEq

/-- Anchored match of `/xref\s+\d+\s+(\d+)/` at the start of `s`:
the captured second digit run. -/
def tryXrefHeaderMatch (s : Text) : Option Text :=
  if leadsWith "xref".toList s then
    let s1 := s.drop 4
    let w1 := s1.takeWhile isSpaceChar
    let s2 := s1.dropWhile isSpaceChar
    let d1 := s2.takeWhile isDigitChar
    let s3 := s2.dropWhile isDigitChar
    let w2 := s3.takeWhile isSpaceChar
    let s4 := s3.dropWhile isSpaceChar
    let d2 := s4.takeWhile isDigitChar
    if w1.isEmpty || d1.isEmpty || w2.isEmpty || d2.isEmpty then none
    else some d2
  else none

/-- The first (leftmost) match of `/xref\s+\d+\s+(\d+)/` in the text —
what `dataText.match(...)` finds — with its captured entry count. -/
def firstXrefCount : Text → Option Text
  | [] => none
  | c :: rest =>
    match tryXrefHeaderMatch (c :: rest) with
    | some d => some d
    | none => firstXrefCount rest

/-- `validateXRefTable` (src/unnamed/part_007): invalid when the decoded
buffer lacks the literal `startxref` (`lastIndexOf === -1`); otherwise,
if an `xref <n> <count>` header is found and its count parses above
`MAX_XREF_ENTRIES = 1000000`, invalid with a too-many-entries error;
otherwise valid. -/
def validateXRefTable (data : Buf) : XRefValidation :=
  if !(containsSeg "startxref".toList (utf8Decode data)) then
    ⟨false, some "Invalid PDF structure: Missing startxref marker".toList⟩
  else
    match firstXrefCount (utf8Decode data) with
    | some d =>
      if digitsVal d > 1000000 then
        ⟨false, some ("Invalid xref table: Too many entries (".toList ++ d ++
          " > 1000000)".toList)⟩
      else ⟨true, none⟩
    | none => ⟨true, none⟩

/-! ## Theorems -/

theorem leadsWith_iff (p s : Text) : leadsWith p s = true ↔ p <+: s := by
  induction p generalizing s with
  | nil => simp [leadsWith]
  | cons a ps ih =>
    cases s with
    | nil => simp [leadsWith]
    | cons c cs =>
      simp only [leadsWith, Bool.and_eq_true, beq_iff_eq]
      constructor
      · rintro ⟨rfl, h⟩
        exact (List.prefix_cons_inj a).mpr ((ih cs).mp h)
      · rintro ⟨t, ht⟩
        injection ht with h1 h2
        exact ⟨h1, (ih cs).mpr ⟨t, h2⟩⟩

theorem splitFirst_eq (pat : Text) (hp : pat ≠ []) :
    ∀ t pre post, splitFirst pat t = some (pre, post) → t = pre ++ pat ++ post := by
  intro t
  induction t with
  | nil => intro pre post h; simp [splitFirst] at h
  | cons c rest ih =>
    intro pre post h
    by_cases hl : leadsWith pat (c :: rest) = true
    · simp [splitFirst, hl] at h
      obtain ⟨hpre, hpost⟩ := h
      subst hpre
      subst hpost
      obtain ⟨u, hu⟩ := (leadsWith_iff pat (c :: rest)).mp hl
      obtain ⟨k, hk⟩ : ∃ k, pat.length = k + 1 := by
        cases hpat : pat with
        | nil => exact absurd hpat hp
        | cons a l => exact ⟨l.length, by simp [hpat]⟩
      have hdrop2 : rest.drop (pat.length - 1) = u := by
        have hdrop : (c :: rest).drop pat.length = u := by
          rw [← hu]; simp
        rw [hk] at hdrop ⊢
        simpa using hdrop
      rw [hdrop2, ← hu]
      simp
    · cases hsp : splitFirst pat rest with
      | none => simp [splitFirst, hl, hsp] at h
      | some pr =>
        obtain ⟨pre', post'⟩ := pr
        simp [splitFirst, hl, hsp] at h
        obtain ⟨hpre, hpost⟩ := h
        subst hpre
        subst hpost
        have heq := ih pre' post' hsp
        rw [heq]
        simp

theorem splitFirst_length (pat : Text) (hp : pat ≠ []) (t pre post : Text)
    (h : splitFirst pat t = some (pre, post)) :
    t.length = pre.length + pat.length + post.length := by
  have := splitFirst_eq pat hp t pre post h
  subst this
  simp only [List.length_append]

theorem splitFirst_post_lt (pat : Text) (hp : pat ≠ []) (t pre post : Text)
    (h : splitFirst pat t = some (pre, post)) : post.length < t.length := by
  have := splitFirst_length pat hp t pre post h
  have hlen : 1 ≤ pat.length := by
    cases pat with
    | nil => exact absurd rfl hp
    | cons a l => simp
  omega

theorem decodeOne_rest_le (b : Nat) (rest : Buf) :
    (decodeOne b rest).2.length ≤ rest.length := by
  unfold decodeOne
  repeat' split
  all_goals simp
  all_goals omega

theorem utf8DecodeAux_fuel_irrel :
    ∀ (f1 f2 : Nat) (bs : Buf), bs.length ≤ f1 → bs.length ≤ f2 →
      utf8DecodeAux f1 bs = utf8DecodeAux f2 bs := by
  intro f1
  induction f1 with
  | zero =>
    intro f2 bs h1 h2
    cases bs with
    | nil => cases f2 <;> rfl
    | cons b r => simp at h1
  | succ f ih =>
    intro f2 bs h1 h2
    cases bs with
    | nil => cases f2 <;> rfl
    | cons b r =>
      cases f2 with
      | zero => simp at h2
      | succ f2x =>
        simp only [utf8DecodeAux]
        have hle := decodeOne_rest_le b r
        simp only [List.length_cons] at h1 h2
        rw [ih f2x _ (by omega) (by omega)]

theorem utf8Decode_cons (b : Nat) (rest : Buf) :
    utf8Decode (b :: rest) = (decodeOne b rest).1 :: utf8Decode (decodeOne b rest).2 := by
  show utf8DecodeAux (rest.length + 1) (b :: rest) = _
  simp only [utf8DecodeAux]
  have hle := decodeOne_rest_le b rest
  rw [utf8DecodeAux_fuel_irrel rest.length (decodeOne b rest).2.length _ hle le_rfl]
  rfl

theorem utf8Decode_eq_nil_iff (bs : Buf) : utf8Decode bs = [] ↔ bs = [] := by
  cases bs with
  | nil => simp [utf8Decode, utf8DecodeAux]
  | cons b rest => rw [utf8Decode_cons]; simp

theorem toNat_ofNat_valid (n : Nat) (h : n.isValidChar) : (Char.ofNat n).toNat = n := by
  simp [Char.ofNat, h, Char.ofNatAux, Char.toNat, UInt32.toNat, UInt32.ofNat',
    BitVec.toNat_ofNatLt]

theorem decodeOne_ascii (b : Nat) (rest : Buf) (h : b < 0x80) :
    decodeOne b rest = (Char.ofNat b, rest) := by
  unfold decodeOne; simp [h]

set_option maxRecDepth 8000 in
theorem decodeOne_head_ge (b : Nat) (rest : Buf) (h : ¬ b < 0x80) :
    0x80 ≤ (decodeOne b rest).1.toNat := by
  have hv : ∀ n : Nat, 0x80 ≤ n → n < 0x110000 → (n < 0xD800 ∨ 0xDFFF < n) →
      0x80 ≤ (Char.ofNat n).toNat := by
    intro n h1 h2 h3
    have hval : n.isValidChar := by
      cases h3 with
      | inl hlt => exact Or.inl hlt
      | inr hgt => exact Or.inr ⟨hgt, h2⟩
    rw [toNat_ofNat_valid n hval]
    exact h1
  match rest with
  | [] =>
    simp only [decodeOne]
    split_ifs
    all_goals first
      | omega
      | exact hv _ (by omega) (by omega) (by omega)
  | [b2] =>
    simp only [decodeOne]
    split_ifs
    all_goals first
      | omega
      | exact hv _ (by omega) (by omega) (by omega)
  | [b2, b3] =>
    simp only [decodeOne]
    split_ifs
    all_goals first
      | omega
      | exact hv _ (by omega) (by omega) (by omega)
  | b2 :: b3 :: b4 :: rest4 =>
    simp only [decodeOne]
    split_ifs
    all_goals first
      | omega
      | exact hv _ (by omega) (by omega) (by omega)


theorem utf8Decode_ascii_elim (bs : Buf) (c : Char) (cs : Text)
    (hd : utf8Decode bs = c :: cs) (hc : c.toNat < 0x80) :
    ∃ rest, bs = c.toNat :: rest ∧ utf8Decode rest = cs := by
  cases bs with
  | nil => simp [utf8Decode, utf8DecodeAux] at hd
  | cons b rest =>
    rw [utf8Decode_cons] at hd
    injection hd with hd1 hd2
    by_cases hb : b < 0x80
    · rw [decodeOne_ascii b rest hb] at hd1 hd2
      have hvb : (Char.ofNat b).toNat = b := toNat_ofNat_valid b (Or.inl (by omega))
      refine ⟨rest, ?_, hd2⟩
      rw [← hd1, hvb]
    · exfalso
      have := decodeOne_head_ge b rest hb
      rw [hd1] at this
      omega

theorem utf8Decode_pdfHeader (bs : Buf) (h : utf8Decode bs = "%PDF-".toList) :
    bs = [0x25, 0x50, 0x44, 0x46, 0x2D] := by
  have hl : "%PDF-".toList = ['%', 'P', 'D', 'F', '-'] := by decide
  rw [hl] at h
  obtain ⟨r1, hb1, h1⟩ := utf8Decode_ascii_elim bs '%' _ h (by decide)
  obtain ⟨r2, hb2, h2⟩ := utf8Decode_ascii_elim r1 'P' _ h1 (by decide)
  obtain ⟨r3, hb3, h3⟩ := utf8Decode_ascii_elim r2 'D' _ h2 (by decide)
  obtain ⟨r4, hb4, h4⟩ := utf8Decode_ascii_elim r3 'F' _ h3 (by decide)
  obtain ⟨r5, hb5, h5⟩ := utf8Decode_ascii_elim r4 '-' _ h4 (by decide)
  have hr5 : r5 = [] := (utf8Decode_eq_nil_iff r5).mp h5
  subst hr5
  rw [hb1, hb2, hb3, hb4, hb5]
  decide

theorem repairPDF_of_headerBytes (b : Buf) (h : b.take 5 = pdfHeaderBytes) :
    repairPDF b = { isValid := true, repairedPDF := some b, error := none } := by
  have hb : ¬ b.length = 0 := by
    intro h0
    rw [List.length_eq_zero] at h0
    subst h0
    simp [pdfHeaderBytes] at h
  have hdec : utf8Decode (b.take 5) = "%PDF-".toList := by
    rw [h]
    decide
  unfold repairPDF
  simp [hb, hdec]

theorem repairPDF_of_take5_ne (b : Buf) (h : b.take 5 ≠ pdfHeaderBytes) :
    (repairPDF b).isValid = false ∧ (repairPDF b).repairedPDF = none := by
  unfold repairPDF
  by_cases h0 : b.length = 0
  · simp [h0]
  · have hne : utf8Decode (b.take 5) ≠ "%PDF-".toList := by
      intro hdec
      exact h (utf8Decode_pdfHeader (b.take 5) hdec)
    rw [if_neg h0, if_pos hne]
    exact ⟨rfl, rfl⟩


/-! ## Claims about the repair orchestrator -/

/-- C1: for every buffer whose first 5 bytes are not the literal `%PDF-`,
`repairPDF` returns a result with `isValid = false` and never invokes any
recovery transform: the output carries no repaired bytes
(`repairedPDF = none`). -/
theorem repair_rejects_non_pdf_header (b : Buf) (h : b.take 5 ≠ pdfHeaderBytes) :
    (repairPDF b).isValid = false ∧ (repairPDF b).repairedPDF = none :=
  repairPDF_of_take5_ne b h

theorem repair_rejects_non_pdf_header_witness :
    (utf8Encode "Not a PDF".toList).take 5 ≠ pdfHeaderBytes ∧
      ((repairPDF (utf8Encode "Not a PDF".toList)).isValid = false ∧
        (repairPDF (utf8Encode "Not a PDF".toList)).repairedPDF = none) :=
  ⟨by decide, repair_rejects_non_pdf_header (utf8Encode "Not a PDF".toList) (by decide)⟩

/-- C2 counterexample: a 50-byte buffer that begins with `%PDF-1.7` is
not rejected by `repairPDF` (the claimed 100-byte INIT floor does not
exist in the code): the call returns `isValid = true` and hands the
buffer back unchanged. -/
theorem repair_no_hundred_byte_floor_cex :
    (utf8Encode "%PDF-1.7\n0 1 obj\n<<>>\nendobj\ntrailer\n<<>>\nab%%EOF\n".toList).length = 50 ∧
      (repairPDF (utf8Encode "%PDF-1.7\n0 1 obj\n<<>>\nendobj\ntrailer\n<<>>\nab%%EOF\n".toList)).isValid
        = true ∧
      (repairPDF (utf8Encode "%PDF-1.7\n0 1 obj\n<<>>\nendobj\ntrailer\n<<>>\nab%%EOF\n".toList)).repairedPDF
        = some (utf8Encode "%PDF-1.7\n0 1 obj\n<<>>\nendobj\ntrailer\n<<>>\nab%%EOF\n".toList) := by
  decide

/-- C2 (amended): `repairPDF`'s INIT step rejects only empty buffers with
a terminal error; a non-empty buffer below 100 bytes whose first 5 bytes
are `%PDF-` is not rejected — it reaches the header validation and is
returned unchanged with `isValid = true`. -/
theorem repair_init_rejects_only_empty (b : Buf) :
    (b.length = 0 →
      repairPDF b =
        { isValid := false, repairedPDF := none,
          error := some "Invalid PDF buffer provided".toList }) ∧
    (b.length < 100 → b.take 5 = pdfHeaderBytes →
      (repairPDF b).isValid = true ∧ (repairPDF b).repairedPDF = some b) := by
  constructor
  · intro h0
    rw [List.length_eq_zero] at h0
    subst h0
    rfl
  · intro _ hh
    rw [repairPDF_of_headerBytes b hh]
    exact ⟨rfl, rfl⟩

theorem repair_init_rejects_only_empty_witness :
    repairPDF [] =
      { isValid := false, repairedPDF := none,
        error := some "Invalid PDF buffer provided".toList } ∧
    (repairPDF (utf8Encode "%PDF-1".toList)).isValid = true := by
  refine ⟨(repair_init_rejects_only_empty []).1 rfl, ?_⟩
  exact ((repair_init_rejects_only_empty (utf8Encode "%PDF-1".toList)).2
    (by decide) (by decide)).1

/-- C3: for every non-empty buffer whose first 5 bytes are the literal
`%PDF-`, `repairPDF` returns `isValid = true` with `repairedPDF`
byte-for-byte identical to the input buffer and no error: the
orchestrator is a pass-through that applies no transformation. -/
theorem repair_pass_through_on_valid_header (b : Buf) (hne : b ≠ [])
    (h : b.take 5 = pdfHeaderBytes) :
    repairPDF b = { isValid := true, repairedPDF := some b, error := none } :=
  repairPDF_of_headerBytes b h

theorem repair_pass_through_on_valid_header_witness :
    (utf8Encode "%PDF-1.4 content".toList ≠ [] ∧
      (utf8Encode "%PDF-1.4 content".toList).take 5 = pdfHeaderBytes) ∧
    repairPDF (utf8Encode "%PDF-1.4 content".toList) =
      { isValid := true, repairedPDF := some (utf8Encode "%PDF-1.4 content".toList),
        error := none } :=
  ⟨⟨by decide, by decide⟩,
    repair_pass_through_on_valid_header (utf8Encode "%PDF-1.4 content".toList)
      (by decide) (by decide)⟩


/-! ## Claims about the corruption classifier -/

theorem leadsWith_append_of_le (p a b : Text) (h : p.length ≤ a.length) :
    leadsWith p (a ++ b) = leadsWith p a := by
  induction p generalizing a with
  | nil => simp [leadsWith]
  | cons x ps ih =>
    cases a with
    | nil => simp at h
    | cons c a2 =>
      simp only [List.cons_append, leadsWith, List.append_eq]
      rw [ih a2 (by simpa using h)]

theorem isMismatchIssue_streamMsg (i : Nat) : isMismatchIssue (streamIssueMsg i) = false := by
  unfold isMismatchIssue streamIssueMsg
  rw [leadsWith_append_of_le "Mismatched".toList
    "Stream corruption detected: Pattern ".toList _ (by decide)]
  decide

theorem isMismatchIssue_mismatchMsg (a b : Nat) : isMismatchIssue (mismatchMsg a b) = true := by
  unfold isMismatchIssue mismatchMsg
  simp only [List.append_assoc]
  rw [leadsWith_append_of_le "Mismatched".toList
    "Mismatched stream/endstream pairs: ".toList _ (by decide)]
  decide

theorem calcSeverity_spec (h x s : List Text) :
    calculateCorruptionSeverity h x s =
      (if h ≠ [] then Severity.CRITICAL
       else if x ≠ [] then Severity.HIGH
       else if s.length > 2 then Severity.HIGH
       else if s ≠ [] then Severity.MEDIUM
       else Severity.LOW) := by
  unfold calculateCorruptionSeverity
  simp only [gt_iff_lt, List.length_pos]

/-- C4: for every buffer, `checkPDFCorruption` derives severity exactly
as: CRITICAL if the header issue list is non-empty; otherwise HIGH if the
xref issue list is non-empty; otherwise HIGH if the stream issue list has
more than 2 entries; otherwise MEDIUM if the stream issue list is
non-empty; otherwise LOW — and in particular any input with at least one
header issue reports CRITICAL regardless of other issues. -/
theorem corruption_severity_derivation (buffer : Buf) :
    ((checkPDFCorruption buffer).severity =
      (if checkHeaderCorruption (utf8Decode buffer) ≠ [] then Severity.CRITICAL
       else if checkXRefCorruption (utf8Decode buffer) ≠ [] then Severity.HIGH
       else if (checkStreamCorruption (utf8Decode buffer)).length > 2 then Severity.HIGH
       else if checkStreamCorruption (utf8Decode buffer) ≠ [] then Severity.MEDIUM
       else Severity.LOW)) ∧
    (checkHeaderCorruption (utf8Decode buffer) ≠ [] →
      (checkPDFCorruption buffer).severity = Severity.CRITICAL) := by
  have hmain : (checkPDFCorruption buffer).severity =
      calculateCorruptionSeverity (checkHeaderCorruption (utf8Decode buffer))
        (checkXRefCorruption (utf8Decode buffer))
        (checkStreamCorruption (utf8Decode buffer)) := rfl
  constructor
  · rw [hmain, calcSeverity_spec]
  · intro hh
    rw [hmain, calcSeverity_spec]
    simp [hh]

theorem corruption_severity_derivation_witness :
    checkHeaderCorruption (utf8Decode (utf8Encode "junk data".toList)) ≠ [] ∧
      (checkPDFCorruption (utf8Encode "junk data".toList)).severity = Severity.CRITICAL :=
  ⟨by decide, (corruption_severity_derivation (utf8Encode "junk data".toList)).2 (by decide)⟩

/-- C5: `checkStreamCorruption` reports no mismatched-pairs issue when
the occurrence counts of the literal substrings `stream` and `endstream`
agree, and exactly one mismatch issue — whose message names both counts —
when they differ (which covers the claim's `k` versus `k+1` case). -/
theorem stream_balance_mismatch_issue (t : Text) :
    (countOcc "stream".toList t = countOcc "endstream".toList t →
      (checkStreamCorruption t).filter isMismatchIssue = []) ∧
    (countOcc "stream".toList t ≠ countOcc "endstream".toList t →
      (checkStreamCorruption t).filter isMismatchIssue =
        [mismatchMsg (countOcc "stream".toList t) (countOcc "endstream".toList t)]) := by
  have h1 : ∀ (c : Bool) (i : Nat),
      (if c = true then [streamIssueMsg i] else []).filter isMismatchIssue = [] := by
    intro c i
    cases c <;> simp [isMismatchIssue_streamMsg]
  constructor
  · intro hc
    unfold checkStreamCorruption
    rw [if_neg (fun hne => hne hc)]
    simp [List.filter_append, h1]
  · intro hc
    unfold checkStreamCorruption
    rw [if_pos hc]
    simp [List.filter_append, h1, List.filter, isMismatchIssue_mismatchMsg]

theorem stream_balance_mismatch_issue_witness :
    (countOcc "stream".toList "endstream".toList =
        countOcc "endstream".toList "endstream".toList ∧
      (checkStreamCorruption "endstream".toList).filter isMismatchIssue = []) ∧
    (countOcc "stream".toList "stream".toList ≠ countOcc "endstream".toList "stream".toList ∧
      (checkStreamCorruption "stream".toList).filter isMismatchIssue =
        [mismatchMsg (countOcc "stream".toList "stream".toList)
          (countOcc "endstream".toList "stream".toList)]) :=
  ⟨⟨by decide, (stream_balance_mismatch_issue "endstream".toList).1 (by decide)⟩,
   ⟨by decide, (stream_balance_mismatch_issue "stream".toList).2 (by decide)⟩⟩


/-! ## Claims about the recovery engine -/

theorem utf8Encode_append (a b : Text) :
    utf8Encode (a ++ b) = utf8Encode a ++ utf8Encode b := by
  unfold utf8Encode
  rw [List.map_append, List.flatten_append]

theorem utf8EncodeChar_length_pos (c : Char) : 1 ≤ (utf8EncodeChar c).length := by
  simp only [utf8EncodeChar]
  split_ifs <;> simp

theorem utf8Encode_length_ge (t : Text) : t.length ≤ (utf8Encode t).length := by
  induction t with
  | nil => simp [utf8Encode]
  | cons c rest ih =>
    have : utf8Encode (c :: rest) = utf8EncodeChar c ++ utf8Encode rest := by
      unfold utf8Encode
      simp
    rw [this]
    have := utf8EncodeChar_length_pos c
    simp only [List.length_append, List.length_cons]
    omega

/-- C6: for every input buffer, `applyRecoveryStrategy` with error type
`MISSING_HEADER` returns `success = true`, and its recovered data starts
with the bytes of `%PDF-1.7` followed by the rest of the canonical
two-line header (newline, `%`, four U+FFFD markers, newline), with the
entire original input appended unchanged after the prepended header. -/
theorem recovery_missing_header (data : Buf) :
    (applyRecoveryStrategy data .MISSING_HEADER).success = true ∧
    (applyRecoveryStrategy data .MISSING_HEADER).recoveredData =
      (utf8Encode "%PDF-1.7".toList ++
        [0x0A, 0x25, 0xEF, 0xBF, 0xBD, 0xEF, 0xBF, 0xBD, 0xEF, 0xBF, 0xBD, 0xEF, 0xBF, 0xBD,
          0x0A]) ++ data := by
  refine ⟨rfl, ?_⟩
  show utf8Encode pdfHeaderTemplate ++ data = _
  have h : utf8Encode pdfHeaderTemplate =
      utf8Encode "%PDF-1.7".toList ++
        [0x0A, 0x25, 0xEF, 0xBF, 0xBD, 0xEF, 0xBF, 0xBD, 0xEF, 0xBF, 0xBD, 0xEF, 0xBF, 0xBD,
          0x0A] := by decide
  rw [h]

/-- C8: the dispatch never raises past its boundary: an unrecognized
error category returns `{success := false, appliedStrategy := "none"}`
with the buffer unmodified, and an exception thrown inside a transform is
caught at the boundary and converted into a failed result whose message
starts with `Recovery failed: ` and whose recovered data is the original
input. -/
theorem recovery_dispatch_total (data : Buf) :
    (∀ et : PDFErrorMessageType,
      et ≠ .MISSING_HEADER → et ≠ .MISSING_XREF → et ≠ .MISMATCHED_STREAM →
      et ≠ .CORRUPTED_TEXT → et ≠ .CORRUPTED_IMAGE → et ≠ .BROKEN_ENCRYPTION →
      applyRecoveryStrategy data et =
        ⟨false, "No recovery strategy available for this error type".toList, data,
          "none".toList⟩) ∧
    (∀ e : Text,
      recoveryBoundary data (Except.error e) =
        ⟨false, "Recovery failed: ".toList ++ e, data, "failed".toList⟩) := by
  constructor
  · intro et h1 h2 h3 h4 h5 h6
    cases et <;> first | rfl | simp_all
  · intro e
    rfl

theorem recovery_dispatch_total_witness :
    applyRecoveryStrategy [1, 2, 3] .INVALID_VERSION =
      ⟨false, "No recovery strategy available for this error type".toList, [1, 2, 3],
        "none".toList⟩ ∧
    recoveryBoundary [1, 2, 3] (Except.error "boom".toList) =
      ⟨false, "Recovery failed: ".toList ++ "boom".toList, [1, 2, 3], "failed".toList⟩ :=
  ⟨(recovery_dispatch_total [1, 2, 3]).1 PDFErrorMessageType.INVALID_VERSION
      (by decide) (by decide) (by decide) (by decide) (by decide) (by decide),
   (recovery_dispatch_total [1, 2, 3]).2 "boom".toList⟩

/-- C10: when the input has at least 6 bytes and `recoverXRefTable`
succeeds, the recovered buffer is the input with its last 6 bytes
overwritten by the synthesized xref table (written at offset
`input length - 6`), followed by 6 never-written zero bytes, so its
length is the input length plus the byte length of the table. -/
theorem xref_rebuild_overlay (data : Buf) (h6 : 6 ≤ data.length)
    (hs : (recoverXRefTable data).success = true) :
    (recoverXRefTable data).recoveredData.length =
      data.length + (utf8Encode (xrefTableText (utf8Decode data))).length ∧
    (recoverXRefTable data).recoveredData =
      data.take (data.length - 6) ++ utf8Encode (xrefTableText (utf8Decode data)) ++
        List.replicate 6 0 := by
  have hxlen : 6 ≤ (utf8Encode (xrefTableText (utf8Decode data))).length := by
    have h1 : 7 ≤ (xrefTableText (utf8Decode data)).length := by
      unfold xrefTableText
      simp only [List.length_append]
      have : ("xref\n0 ".toList).length = 7 := by decide
      omega
    have h2 := utf8Encode_length_ge (xrefTableText (utf8Decode data))
    omega
  have hlt : ¬ data.length < 6 := by omega
  have hres : recoverXRefTable data =
      ⟨setAt (setAt (List.replicate
          (data.length + (utf8Encode (xrefTableText (utf8Decode data))).length) 0) 0 data)
        (data.length - 6) (utf8Encode (xrefTableText (utf8Decode data))), true⟩ := by
    unfold recoverXRefTable recoverXRefTableBody
    rw [if_neg hlt]
  set xb := utf8Encode (xrefTableText (utf8Decode data)) with hxb
  set n := data.length with hn
  have hstep1 : setAt (List.replicate (n + xb.length) 0) 0 data =
      data ++ List.replicate xb.length 0 := by
    unfold setAt
    simp [List.drop_replicate]
  have hstep2 : setAt (data ++ List.replicate xb.length 0) (n - 6) xb =
      data.take (n - 6) ++ xb ++ List.replicate 6 0 := by
    unfold setAt
    have htake : (data ++ List.replicate xb.length 0).take (n - 6) = data.take (n - 6) := by
      rw [List.take_append_of_le_length (by omega)]
    have hdrop : (data ++ List.replicate xb.length 0).drop (n - 6 + xb.length) =
        List.replicate 6 0 := by
      have harith : n - 6 + xb.length = data.length + (xb.length - 6) := by omega
      rw [harith, List.drop_append, List.drop_replicate]
      have h2 : xb.length - (xb.length - 6) = 6 := by omega
      rw [h2]
    rw [htake, hdrop]
  have hmain : (recoverXRefTable data).recoveredData =
      data.take (n - 6) ++ xb ++ List.replicate 6 0 := by
    rw [hres]
    show setAt (setAt (List.replicate (n + xb.length) 0) 0 data) (n - 6) xb = _
    rw [hstep1, hstep2]
  refine ⟨?_, hmain⟩
  rw [hmain]
  simp only [List.length_append, List.length_take, List.length_replicate]
  omega

theorem xref_rebuild_overlay_witness :
    (6 ≤ (utf8Encode "1 0 obj hi endobj %%EOF".toList).length ∧
      (recoverXRefTable (utf8Encode "1 0 obj hi endobj %%EOF".toList)).success = true) ∧
    ((recoverXRefTable (utf8Encode "1 0 obj hi endobj %%EOF".toList)).recoveredData.length =
      (utf8Encode "1 0 obj hi endobj %%EOF".toList).length +
        (utf8Encode (xrefTableText
          (utf8Decode (utf8Encode "1 0 obj hi endobj %%EOF".toList)))).length ∧
    (recoverXRefTable (utf8Encode "1 0 obj hi endobj %%EOF".toList)).recoveredData =
      (utf8Encode "1 0 obj hi endobj %%EOF".toList).take
          ((utf8Encode "1 0 obj hi endobj %%EOF".toList).length - 6) ++
        utf8Encode (xrefTableText
          (utf8Decode (utf8Encode "1 0 obj hi endobj %%EOF".toList))) ++
        List.replicate 6 0) :=
  ⟨⟨by decide, by decide⟩,
    xref_rebuild_overlay (utf8Encode "1 0 obj hi endobj %%EOF".toList) (by decide) (by decide)⟩

/-- C7 (code bug): on `streamFixCex` the first two substitutions of
`fixStreamDelimiters` are no-ops (the delimiters are already correct),
yet the transform changes the stream body: the whole-buffer UTF-8
decode/encode round trip rewrites the body byte `0x80` to the three-byte
replacement-character encoding `EF BF BD`, so the recovered buffer no
longer contains the original body byte at all. -/
theorem stream_fix_reencodes_binary_body :
    (0x80 ∈ streamFixCex) ∧
    fixStreamAux1 (utf8Decode streamFixCex).length (utf8Decode streamFixCex) =
      utf8Decode streamFixCex ∧
    fixStreamAux2 (utf8Decode streamFixCex).length none (utf8Decode streamFixCex) =
      utf8Decode streamFixCex ∧
    fixStreamDelimiters streamFixCex =
      ⟨utf8Encode "%PDF-1.7\n<< /Length 1\nstream\n".toList ++ [0xEF, 0xBF, 0xBD] ++
        utf8Encode "\nendstream\n".toList, true⟩ ∧
    (0x80 ∉ (fixStreamDelimiters streamFixCex).recoveredData) := by
  decide


/-- C9: `validateXRefTable` returns `valid = true` exactly when the
decoded buffer contains the literal `startxref` and the xref header its
scan finds (the first `/xref\s+\d+\s+(\d+)/` match, if any) has a count
within the fixed ceiling of 1,000,000; and when `startxref` is present
but the found count exceeds the ceiling, the result is invalid with the
too-many-entries error. -/
theorem xref_validation_spec (data : Buf) :
    ((validateXRefTable data).valid = true ↔
      (containsSeg "startxref".toList (utf8Decode data) = true ∧
        ∀ d, firstXrefCount (utf8Decode data) = some d → digitsVal d ≤ 1000000)) ∧
    (containsSeg "startxref".toList (utf8Decode data) = true →
      ∀ d, firstXrefCount (utf8Decode data) = some d → 1000000 < digitsVal d →
      validateXRefTable data =
        ⟨false, some ("Invalid xref table: Too many entries (".toList ++ d ++
          " > 1000000)".toList)⟩) := by
  cases hsx : containsSeg "startxref".toList (utf8Decode data) with
  | false =>
    have hval : validateXRefTable data =
        ⟨false, some "Invalid PDF structure: Missing startxref marker".toList⟩ := by
      unfold validateXRefTable
      rw [hsx]
      rfl
    refine ⟨?_, ?_⟩
    · rw [hval]
      constructor
      · intro h
        exact absurd h (by simp)
      · rintro ⟨h1, -⟩
        exact absurd h1 (by simp)
    · intro hcs
      exact absurd hcs (by simp)
  | true =>
    cases hfc : firstXrefCount (utf8Decode data) with
    | none =>
      have hval : validateXRefTable data = ⟨true, none⟩ := by
        unfold validateXRefTable
        rw [hsx, hfc]
        rfl
      refine ⟨?_, ?_⟩
      · rw [hval]
        constructor
        · intro _
          refine ⟨rfl, ?_⟩
          intro d hd
          simp at hd
        · intro _
          rfl
      · intro _ d hd
        simp at hd
    | some d0 =>
      by_cases hbig : 1000000 < digitsVal d0
      · have hval : validateXRefTable data =
            ⟨false, some ("Invalid xref table: Too many entries (".toList ++ d0 ++
              " > 1000000)".toList)⟩ := by
          unfold validateXRefTable
          rw [hsx, hfc]
          simp [hbig]
        refine ⟨?_, ?_⟩
        · rw [hval]
          constructor
          · intro hfalse
            exact absurd hfalse (by simp)
          · rintro ⟨-, hall⟩
            exact absurd (hall d0 rfl) (by omega)
        · intro _ d hd hbig2
          injection hd with hd
          subst hd
          exact hval
      · have hval : validateXRefTable data = ⟨true, none⟩ := by
          unfold validateXRefTable
          rw [hsx, hfc]
          simp [hbig]
        refine ⟨?_, ?_⟩
        · rw [hval]
          constructor
          · intro _
            refine ⟨rfl, ?_⟩
            intro d hd
            injection hd with hd
            subst hd
            omega
          · intro _
            rfl
        · intro _ d hd hbig2
          injection hd with hd
          subst hd
          omega

theorem xref_validation_spec_witness :
    firstXrefCount (utf8Decode (utf8Encode "startxref xref 0 2000000".toList)) =
      some "2000000".toList ∧
    validateXRefTable (utf8Encode "startxref xref 0 2000000".toList) =
      ⟨false, some ("Invalid xref table: Too many entries (".toList ++ "2000000".toList ++
        " > 1000000)".toList)⟩ :=
  ⟨by decide,
    (xref_validation_spec (utf8Encode "startxref xref 0 2000000".toList)).2
      (by decide) "2000000".toList (by decide) (by decide)⟩

end PDFRepairTool
